import Mathlib

/-!
Verification development for the TobiiGlassesController streaming subsystem
(tobiiglassesctrl/controller.py).

The Python code is shallowly embedded: each relevant method becomes a Lean
function over explicit state, Python dict lookups that can raise KeyError
become Option matches, and the broad try/except blocks become the
corresponding fall-through branches.
-/

/-- Payload of a channel field (a JSON value; the controller never inspects
it, only stores it), abstracted as an integer code so that distinct concrete
messages can be written down. -/
abbrev Val := Int

/-- Shallow embedding of a streaming JSON datagram as received by
`__refresh_data__` (controller.py lines 211-284).  Each known key of the dict
is an optional field; `none` models the key being absent (a lookup raising
KeyError).  `ts` is the shared timestamp, `s` the status code, `eye` the
discriminator for the eye-specific keys. -/
structure Msg where
  gy : Option Val := none
  ac : Option Val := none
  pc : Option Val := none
  pd : Option Val := none
  gd : Option Val := none
  gp : Option Val := none
  gp3 : Option Val := none
  pts : Option Val := none
  vts : Option Val := none
  pv : Option Val := none
  ts : Option Int := none
  s : Option Int := none
  eye : Option String := none
  deriving DecidableEq, Repr

/-- The two eye discriminators used by the `eye + '_eye'` dict keys. -/
inductive Eye
  | left
  | right
  deriving DecidableEq, Repr

/-- The string value the `eye` field must carry for each eye
(controller.py builds the dict key as `eye + '_eye'`). -/
def eyeStr : Eye → String
  | Eye.left => "left"
  | Eye.right => "right"

/-- Shallow embedding of `self.data` (controller.py lines 64-72): one stored
sample (the whole last-accepted datagram, or the sentinel) per channel slot.
The nested dicts `mems`, `left_eye`, `right_eye` are flattened into fields.
`pv` is `Option Msg` because `__init__` creates no `'pv'` entry: `none`
models the key being absent from the dict. -/
structure Store where
  mems_ac : Msg
  mems_gy : Msg
  left_pc : Msg
  left_pd : Msg
  left_gd : Msg
  right_pc : Msg
  right_pd : Msg
  right_gd : Msg
  gp : Msg
  gp3 : Msg
  pts : Msg
  vts : Msg
  pv : Option Msg
  deriving DecidableEq, Repr

/-- The sentinel sample `nd = {'ts': -1}` of controller.py line 65. -/
def nd : Msg := { ts := some (-1) }

/-- The snapshot built by `__init__` (controller.py lines 64-72): every
channel of the nested dicts gets the sentinel; no `'pv'` key is created. -/
def init_data : Store :=
  { mems_ac := nd, mems_gy := nd
    left_pc := nd, left_pd := nd, left_gd := nd
    right_pc := nd, right_pd := nd, right_gd := nd
    gp := nd, gp3 := nd, pts := nd, vts := nd
    pv := none }

/-- The body of each per-channel `if` in `__refresh_data__`: given the stored
sample and the incoming datagram whose `ts` lookup yielded `t`, replace the
stored sample with the whole datagram when `stored['ts'] < ts and s == 0`.
A stored sample without `'ts'` raises KeyError, swallowed by the enclosing
`except`, leaving the slot unchanged. -/
def updMsg (stored : Msg) (jd : Msg) (t : Int) : Msg :=
  match stored.ts with
  | some stt => if stt < t ∧ jd.s = some 0 then jd else stored
  | none => stored

/-- One try-block of `__refresh_data__` for a channel without an eye
discriminator (gy, ac, gp, gp3, pts, vts): the block first looks up the
channel key and `'ts'`; a KeyError on either leaves the slot unchanged. -/
def refreshSlot (field : Msg → Option Val) (stored : Msg) (jd : Msg) : Msg :=
  match field jd, jd.ts with
  | some _, some t => updMsg stored jd t
  | _, _ => stored

/-- One try-block of `__refresh_data__` for an eye channel (pc, pd, gd),
seen from the slot of eye `e`: the block looks up the channel key, `'ts'`
and `'eye'`; a KeyError on any leaves both slots unchanged, and the dict
lookup `self.data[eye + '_eye']` raises KeyError (slot unchanged) unless the
`eye` value names this slot's eye. -/
def refreshEyeSlot (e : Eye) (field : Msg → Option Val) (stored : Msg)
    (jd : Msg) : Msg :=
  match field jd, jd.ts, jd.eye with
  | some _, some t, some ey => if ey = eyeStr e then updMsg stored jd t else stored
  | _, _, _ => stored

/-- The `pv` try-block of `__refresh_data__` (controller.py lines 278-284):
it additionally reads `self.data['pv']`, which raises KeyError when the dict
has no `'pv'` entry, leaving everything unchanged. -/
def refreshPvSlot (storedPv : Option Msg) (jd : Msg) : Option Msg :=
  match jd.pv, jd.ts, storedPv with
  | some _, some t, some stored => some (updMsg stored jd t)
  | _, _, _ => storedPv

/-- Try-block for `'gy'` (controller.py lines 212-218). -/
def refresh_gy (st : Store) (jd : Msg) : Store :=
  { st with mems_gy := refreshSlot Msg.gy st.mems_gy jd }

/-- Try-block for `'ac'` (controller.py lines 219-225). -/
def refresh_ac (st : Store) (jd : Msg) : Store :=
  { st with mems_ac := refreshSlot Msg.ac st.mems_ac jd }

/-- Try-block for `'pc'` (controller.py lines 226-233). -/
def refresh_pc (st : Store) (jd : Msg) : Store :=
  { st with left_pc := refreshEyeSlot Eye.left Msg.pc st.left_pc jd
            right_pc := refreshEyeSlot Eye.right Msg.pc st.right_pc jd }

/-- Try-block for `'pd'` (controller.py lines 234-241). -/
def refresh_pd (st : Store) (jd : Msg) : Store :=
  { st with left_pd := refreshEyeSlot Eye.left Msg.pd st.left_pd jd
            right_pd := refreshEyeSlot Eye.right Msg.pd st.right_pd jd }

/-- Try-block for `'gd'` (controller.py lines 242-249). -/
def refresh_gd (st : Store) (jd : Msg) : Store :=
  { st with left_gd := refreshEyeSlot Eye.left Msg.gd st.left_gd jd
            right_gd := refreshEyeSlot Eye.right Msg.gd st.right_gd jd }

/-- Try-block for `'gp'` (controller.py lines 250-256). -/
def refresh_gp (st : Store) (jd : Msg) : Store :=
  { st with gp := refreshSlot Msg.gp st.gp jd }

/-- Try-block for `'gp3'` (controller.py lines 257-263). -/
def refresh_gp3 (st : Store) (jd : Msg) : Store :=
  { st with gp3 := refreshSlot Msg.gp3 st.gp3 jd }

/-- Try-block for `'pts'` (controller.py lines 264-270). -/
def refresh_pts (st : Store) (jd : Msg) : Store :=
  { st with pts := refreshSlot Msg.pts st.pts jd }

/-- Try-block for `'vts'` (controller.py lines 271-277). -/
def refresh_vts (st : Store) (jd : Msg) : Store :=
  { st with vts := refreshSlot Msg.vts st.vts jd }

/-- Try-block for `'pv'` (controller.py lines 278-284). -/
def refresh_pvch (st : Store) (jd : Msg) : Store :=
  { st with pv := refreshPvSlot st.pv jd }

/-- `__refresh_data__` (controller.py lines 211-284): the ten independent
try-blocks run in sequence; each touches only its own channel slot, so the
sequential composition below is the whole method. -/
def refresh_data (st : Store) (jd : Msg) : Store :=
  refresh_pvch
    (refresh_vts
      (refresh_pts
        (refresh_gp3
          (refresh_gp
            (refresh_gd
              (refresh_pd
                (refresh_pc
                  (refresh_ac
                    (refresh_gy st jd) jd) jd) jd) jd) jd) jd) jd) jd) jd

/-- The twelve channels that `__init__` gives a stored sample (the `pv` slot
is not among them: `__init__` never creates it). -/
inductive Channel
  | gy
  | ac
  | gp
  | gp3
  | pts
  | vts
  | pc (e : Eye)
  | pd (e : Eye)
  | gd (e : Eye)
  deriving DecidableEq, Repr

/-- Read one channel's stored sample out of the snapshot. -/
def Store.get (st : Store) : Channel → Msg
  | Channel.gy => st.mems_gy
  | Channel.ac => st.mems_ac
  | Channel.gp => st.gp
  | Channel.gp3 => st.gp3
  | Channel.pts => st.pts
  | Channel.vts => st.vts
  | Channel.pc Eye.left => st.left_pc
  | Channel.pc Eye.right => st.right_pc
  | Channel.pd Eye.left => st.left_pd
  | Channel.pd Eye.right => st.right_pd
  | Channel.gd Eye.left => st.left_gd
  | Channel.gd Eye.right => st.right_gd

/-- The datagram key a channel's try-block looks up. -/
def msgField : Channel → Msg → Option Val
  | Channel.gy => Msg.gy
  | Channel.ac => Msg.ac
  | Channel.gp => Msg.gp
  | Channel.gp3 => Msg.gp3
  | Channel.pts => Msg.pts
  | Channel.vts => Msg.vts
  | Channel.pc _ => Msg.pc
  | Channel.pd _ => Msg.pd
  | Channel.gd _ => Msg.gd

/-- The eye discriminator a channel's slot requires, if any. -/
def chanEye : Channel → Option Eye
  | Channel.pc e => some e
  | Channel.pd e => some e
  | Channel.gd e => some e
  | _ => none

/-- A datagram carries channel `c`: its key is present, and for an eye
channel the `eye` field names that slot's eye. -/
def keyHits (jd : Msg) (c : Channel) : Prop :=
  (msgField c jd).isSome = true ∧
    ∀ e, chanEye c = some e → jd.eye = some (eyeStr e)

instance (jd : Msg) (c : Channel) : Decidable (keyHits jd c) := by
  unfold keyHits
  infer_instance

/-- What one merge does to one channel's slot, stated channel-generically. -/
def refreshChannel (c : Channel) (stored : Msg) (jd : Msg) : Msg :=
  match chanEye c with
  | none => refreshSlot (msgField c) stored jd
  | some e => refreshEyeSlot e (msgField c) stored jd

/-! Model of `__grab_data__` (controller.py lines 166-175).  Inside the
method the parameter is named `socket`, shadowing the `socket` module, so the
clause `except socket.timeout:` evaluates the *socket object's* `timeout`
attribute — the numeric receive timeout installed by `__mksock__` via
`sock.settimeout(5.0)` (line 184) — and not the module's exception class.
Python evaluates the clause expression only when an exception is raised in
the try body, and `except E:` with `E` not an exception class raises
`TypeError` at that point. -/

/-- The Python exception classes this model distinguishes. -/
inductive PyExcClass
  | socketTimeoutClass
  | typeErrorClass
  deriving DecidableEq, Repr

/-- A Python value an except-clause expression can denote here: an exception
class, or a float such as a socket's `timeout` attribute. -/
inductive ClauseVal
  | excClass (c : PyExcClass)
  | pyFloat (seconds : Int)
  deriving DecidableEq, Repr

/-- Python semantics of matching a raised exception against an evaluated
except clause: a non-class clause value raises TypeError at match time. -/
def clauseCatch (v : ClauseVal) (raised : PyExcClass) : Except PyExcClass Bool :=
  match v with
  | ClauseVal.excClass c => Except.ok (decide (c = raised))
  | ClauseVal.pyFloat _ => Except.error PyExcClass.typeErrorClass

/-- The receive timeout `__mksock__` installs with `sock.settimeout(5.0)`
(controller.py line 184), in seconds. -/
def MKSOCK_TIMEOUT_SECONDS : Int := 5

/-- What the expression `socket.timeout` denotes inside `__grab_data__`:
the parameter `socket` is the data socket object, so the attribute lookup
yields its numeric timeout, not the module's exception class. -/
def grabExceptClauseVal : ClauseVal := ClauseVal.pyFloat MKSOCK_TIMEOUT_SECONDS

/-- One iteration of the `__grab_data__` loop in the case where
`socket.recvfrom` raises the receive-timeout exception: the result is the
new streaming flag if the iteration completes, or the exception class that
escapes the method.  (When the handler matched, its body would log and set
`self.streaming = False`.) -/
def grab_data_timeout_step (streaming : Bool) : Except PyExcClass Bool :=
  if streaming then
    match clauseCatch grabExceptClauseVal PyExcClass.socketTimeoutClass with
    | Except.ok true => Except.ok false
    | Except.ok false => Except.error PyExcClass.socketTimeoutClass
    | Except.error e => Except.error e
  else Except.ok streaming

/-! Model of `__mksock__` (controller.py lines 177-191). -/

/-- Outcome of `__mksock__`: either a socket is returned, or an uncaught
TypeError escapes the method. -/
inductive MkSockResult
  | sock
  | typeError
  deriving DecidableEq, Repr

/-- Shallow embedding of `__mksock__` under Python 3, the repository's
runtime.  `peerAddr` is `self.peer[0]` as its character list (the family
test on line 179 is the character-membership test `':' in self.peer[0]`) and
`iface_name` is `self.iface_name` (None unless the constructor found `%` in
the address).  For IPv6 the method always runs the line
`sock.setsockopt(socket.SOL_SOCKET, 25, self.iface_name + chr(0))`
(line 187), and under Python 3 that line deterministically raises TypeError
on every input, before any syscall:
with `iface_name` None the argument expression `None + chr(0)` raises
TypeError, and with a name supplied the argument is a `str`, which
`setsockopt` rejects with TypeError (a bytes-like object is required).
Neither TypeError is caught by `except socket.error`, so it escapes and no
socket is returned; the errno-1 EPERM warning branch of the handler is
unreachable.  For IPv4 the `setsockopt` line is skipped and the socket is
returned. -/
def mksock (peerAddr : List Char) (iface_name : Option String) : MkSockResult :=
  if ':' ∈ peerAddr then
    match iface_name with
    | none => MkSockResult.typeError
    | some _ => MkSockResult.typeError
  else MkSockResult.sock

/-! Model of the discovery ports (`__discover_device__`, controller.py
lines 128-143). -/

/-- The discovery listen port `PORT` (controller.py line 129). -/
def TOBII_DISCOVERY_PORT : Nat := 13006

/-- The probe destination port `PORT_OUT` (controller.py line 140):
`PORT if sys.platform == 'win32' or sys.platform == 'darwin' else PORT + 1`. -/
def discover_port_out (platform : String) : Nat :=
  if platform = "win32" ∨ platform = "darwin" then TOBII_DISCOVERY_PORT
  else TOBII_DISCOVERY_PORT + 1

/-! Model of `wait_for_status` (controller.py lines 549-565). -/

/-- One poll of the status URL: `urlopen` raised URLError, or a reply was
parsed and `json_data[key]` yielded a value (`none` models the key being
absent, a KeyError). -/
inductive PollResult
  | urlError
  | reply (keyVal : Option String)
  deriving DecidableEq, Repr

/-- How a run of `wait_for_status` ends. -/
inductive WaitOutcome
  | sentinel
  | value (v : String)
  | keyError
  | pending
  deriving DecidableEq, Repr

/-- Shallow embedding of the `wait_for_status` polling loop over the finite
list of successive poll results the environment will produce: a URLError is
logged and `-1` returned (`sentinel`); a missing key raises KeyError; a value
in `values` ends the loop and is returned; otherwise the loop polls again.
`pending` means the supplied poll results ran out with the loop still
running. -/
def wait_for_status (values : List String) : List PollResult → WaitOutcome
  | [] => WaitOutcome.pending
  | PollResult.urlError :: _ => WaitOutcome.sentinel
  | PollResult.reply none :: _ => WaitOutcome.keyError
  | PollResult.reply (some v) :: rest =>
      if v ∈ values then WaitOutcome.value v else wait_for_status values rest

/-! Model of `close` / `stop_streaming` / `__disconnect__`
(controller.py lines 310-314, 532-543, 114-120). -/

/-- Externally visible operations `close` can perform. -/
inductive CloseAction
  | stopStream
  | closeDataSocket
  | closeVideoSocket
  deriving DecidableEq, Repr

/-- The controller state `close` consults: `self.address`,
`self.streaming`, `self.video_scene`. -/
structure SessionState where
  address : Option String
  streaming : Bool
  video_scene : Bool
  deriving DecidableEq, Repr

/-- `stop_streaming` (controller.py lines 532-543): when the streaming flag
is set, clear it and join the duties (one `stopStream` action); otherwise do
nothing. -/
def stop_streaming (st : SessionState) : SessionState × List CloseAction :=
  if st.streaming then
    ({ st with streaming := false }, CloseAction.stopStream :: [])
  else (st, [])

/-- `__disconnect__` (controller.py lines 114-120): close the data socket,
and the video socket when `video_scene` is set. -/
def disconnect (st : SessionState) : List CloseAction :=
  CloseAction.closeDataSocket ::
    (if st.video_scene then CloseAction.closeVideoSocket :: [] else [])

/-- `close` (controller.py lines 310-314): do nothing when `self.address`
is None; otherwise stop streaming when the flag is set, then disconnect. -/
def close (st : SessionState) : SessionState × List CloseAction :=
  match st.address with
  | none => (st, [])
  | some _ =>
      let p := if st.streaming then stop_streaming st else (st, [])
      (p.1, p.2 ++ disconnect p.1)

/-! Concrete datagrams and values used by the witness theorems. -/

/-- A valid gaze-point datagram with timestamp 5. -/
def msgGp5 : Msg := { gp := some 1, ts := some 5, s := some 0 }

/-- A valid but stale gaze-point datagram with timestamp 3. -/
def msgGp3 : Msg := { gp := some 2, ts := some 3, s := some 0 }

/-- A gaze-point datagram with nonzero status. -/
def msgBadStatus : Msg := { gp := some 3, ts := some 9, s := some 1 }

/-- A valid datagram carrying three channel keys at once. -/
def msgMulti : Msg := { gy := some 1, ac := some 2, gp := some 3, ts := some 7, s := some 0 }

/-- A valid `pv` datagram. -/
def msgPv : Msg := { pv := some 4, ts := some 5, s := some 0 }

/-- A valid gyroscope datagram with timestamp 6. -/
def msgGy6 : Msg := { gy := some 5, ts := some 6, s := some 0 }

/-- A datagram carrying a gp key but no `'ts'` key. -/
def msgNoTs : Msg := { gp := some 1 }

/-- A datagram carrying a gp key and a timestamp but no `'s'` key. -/
def msgNoS : Msg := { gp := some 1, ts := some 9 }

/-- A valid datagram carrying an eye key and a gaze-point key whose `eye`
field is neither of the two recognised values. -/
def msgBadEye : Msg :=
  { pc := some 1, gp := some 2, ts := some 4, s := some 0, eye := some "up" }

/-- A valid left-eye pupil-center datagram. -/
def msgLeftPc : Msg := { pc := some 6, ts := some 8, s := some 0, eye := some "left" }

/-- An IPv6 peer address, `::1`, with no scope id (so `iface_name` stays
None), as its character list. -/
def addr6NoScope : List Char := ':' :: ':' :: '1' :: []

/-- An IPv4 peer address, `10.0.0.1`, as its character list. -/
def addr4 : List Char := '1' :: '0' :: '.' :: '0' :: '.' :: '0' :: '.' :: '1' :: []

/-- A network interface name. -/
def ifaceEth0 : String := "eth0"

/-- The platform strings the discovery code branches on. -/
def platformWin32 : String := "win32"

/-- The macOS platform string. -/
def platformDarwin : String := "darwin"

/-- A platform string of the `else` branch. -/
def platformLinux : String := "linux"

/-- The accepted-status name used in concrete wait runs. -/
def statusOk : String := "ok"

/-- A controller state whose construction failed before an address was
obtained (the state a destructor-time `close` sees after failed discovery). -/
def stNoAddr : SessionState :=
  { address := none, streaming := true, video_scene := true }

/-- The device address of the concrete live session, as a string. -/
def addrStr : String := "10.0.0.1"

/-- A connected, actively streaming controller state without scene video. -/
def stLive : SessionState :=
  { address := some addrStr, streaming := true, video_scene := false }

/-- A status name outside the accepted set of a concrete wait run. -/
def statusInit : String := "init"

/-- Componentwise reading of one merge: the slot of channel `c` after
`refresh_data` is exactly its own try-block applied to its own old value.
This holds definitionally because every try-block is a record update of its
own slot only. -/
theorem get_refresh_data (c : Channel) (st : Store) (jd : Msg) :
    (refresh_data st jd).get c = refreshChannel c (st.get c) jd := by
  cases c with
  | gy => rfl
  | ac => rfl
  | gp => rfl
  | gp3 => rfl
  | pts => rfl
  | vts => rfl
  | pc e => cases e <;> rfl
  | pd e => cases e <;> rfl
  | gd e => cases e <;> rfl

/-- The `pv` slot after one merge is its own try-block's result. -/
theorem pv_refresh_data (st : Store) (jd : Msg) :
    (refresh_data st jd).pv = refreshPvSlot st.pv jd := rfl

/-- Case analysis for one channel try-block: either the slot is unchanged,
or it is replaced by the whole datagram, and then the key hits, the status
is 0 and the timestamp strictly increased. -/
theorem refreshChannel_cases (c : Channel) (stored : Msg) (jd : Msg) :
    refreshChannel c stored jd = stored ∨
      (keyHits jd c ∧ jd.s = some 0 ∧
        ∃ t stt, jd.ts = some t ∧ stored.ts = some stt ∧ stt < t ∧
          refreshChannel c stored jd = jd) := by
  unfold refreshChannel
  rcases hce : chanEye c with _ | e
  · unfold refreshSlot
    rcases hf : msgField c jd with _ | v
    · exact Or.inl rfl
    rcases hts : jd.ts with _ | t
    · exact Or.inl rfl
    unfold updMsg
    rcases hst : stored.ts with _ | stt
    · exact Or.inl rfl
    by_cases hcond : stt < t ∧ jd.s = some 0
    · refine Or.inr ⟨⟨by simp [hf], ?_⟩, hcond.2, t, stt, rfl, rfl, hcond.1, by simp [hcond]⟩
      intro e he
      rw [hce] at he
      exact absurd he (by simp)
    · exact Or.inl (by simp [hcond])
  · unfold refreshEyeSlot
    rcases hf : msgField c jd with _ | v
    · exact Or.inl rfl
    rcases hts : jd.ts with _ | t
    · exact Or.inl rfl
    rcases hey : jd.eye with _ | ey
    · exact Or.inl rfl
    by_cases heq : ey = eyeStr e
    · unfold updMsg
      rcases hst : stored.ts with _ | stt
      · simp [heq]
      by_cases hcond : stt < t ∧ jd.s = some 0
      · refine Or.inr ⟨⟨by simp [hf], ?_⟩, hcond.2, t, stt, rfl, rfl, hcond.1, by simp [heq, hcond]⟩
        intro e2 he2
        rw [hce] at he2
        cases he2
        rw [hey, heq]
      · exact Or.inl (by simp [heq, hcond])
    · exact Or.inl (by simp [heq])

/-- A try-block whose key does not hit (key absent, or eye discriminator
absent or naming the other eye) leaves the slot unchanged. -/
theorem refreshChannel_miss (c : Channel) (stored : Msg) (jd : Msg)
    (h : ¬ keyHits jd c) : refreshChannel c stored jd = stored := by
  rcases refreshChannel_cases c stored jd with h1 | ⟨hk, _⟩
  · exact h1
  · exact absurd hk h

/-- A datagram with nonzero (or absent) status never changes a slot. -/
theorem refreshChannel_invalid (c : Channel) (stored : Msg) (jd : Msg)
    (h : jd.s ≠ some 0) : refreshChannel c stored jd = stored := by
  rcases refreshChannel_cases c stored jd with h1 | ⟨_, hs, _⟩
  · exact h1
  · exact absurd hs h

/-- A datagram without a `'ts'` key never changes a slot. -/
theorem refreshChannel_no_ts (c : Channel) (stored : Msg) (jd : Msg)
    (h : jd.ts = none) : refreshChannel c stored jd = stored := by
  rcases refreshChannel_cases c stored jd with h1 | ⟨_, _, t, _, hts, _⟩
  · exact h1
  · rw [h] at hts
    cases hts

/-- A datagram whose timestamp is not strictly above the stored one never
changes the slot. -/
theorem refreshChannel_stale (c : Channel) (stored : Msg) (jd : Msg)
    (t stt : Int) (hts : jd.ts = some t) (hst : stored.ts = some stt)
    (hle : t ≤ stt) : refreshChannel c stored jd = stored := by
  rcases refreshChannel_cases c stored jd with h1 | ⟨_, _, t2, stt2, hts2, hst2, hlt, _⟩
  · exact h1
  · rw [hts] at hts2
    rw [hst] at hst2
    cases hts2
    cases hst2
    exact absurd hlt (not_lt.mpr hle)

/-- A try-block whose key hits, with valid status and strictly newer
timestamp, replaces the slot with the whole datagram. -/
theorem refreshChannel_update (c : Channel) (stored : Msg) (jd : Msg)
    (t stt : Int) (hk : keyHits jd c) (hs : jd.s = some 0)
    (hts : jd.ts = some t) (hst : stored.ts = some stt) (hlt : stt < t) :
    refreshChannel c stored jd = jd := by
  unfold refreshChannel
  obtain ⟨hf, hey⟩ := hk
  rcases hce : chanEye c with _ | e
  · unfold refreshSlot
    rcases hf2 : msgField c jd with _ | v
    · rw [hf2] at hf
      simp at hf
    rw [hts]
    unfold updMsg
    rw [hst]
    simp [hlt, hs]
  · unfold refreshEyeSlot
    rcases hf2 : msgField c jd with _ | v
    · rw [hf2] at hf
      simp at hf
    rw [hts, hey e hce]
    unfold updMsg
    rw [hst]
    simp [hlt, hs]

/-- A try-block never decreases the slot's timestamp, and keeps it present. -/
theorem refreshChannel_ts_mono (c : Channel) (stored : Msg) (jd : Msg)
    (t : Int) (hst : stored.ts = some t) :
    ∃ t2, (refreshChannel c stored jd).ts = some t2 ∧ t ≤ t2 := by
  rcases refreshChannel_cases c stored jd with h1 | ⟨_, _, tj, stt, hts, hst2, hlt, heq⟩
  · exact ⟨t, by rw [h1, hst], le_refl t⟩
  · rw [hst] at hst2
    cases hst2
    exact ⟨tj, by rw [heq, hts], le_of_lt hlt⟩

/-- Two snapshots agreeing on every channel slot and on the `pv` entry are
equal. -/
theorem store_eq_of_get (st st2 : Store)
    (h : ∀ c, st.get c = st2.get c) (hpv : st.pv = st2.pv) : st = st2 := by
  cases st
  cases st2
  simp only [Store.mk.injEq]
  exact ⟨h Channel.ac, h Channel.gy,
    h (Channel.pc Eye.left), h (Channel.pd Eye.left), h (Channel.gd Eye.left),
    h (Channel.pc Eye.right), h (Channel.pd Eye.right), h (Channel.gd Eye.right),
    h Channel.gp, h Channel.gp3, h Channel.pts, h Channel.vts, hpv⟩

/-- With no stored `'pv'` entry, the `pv` try-block always falls through. -/
theorem refreshPvSlot_none (jd : Msg) : refreshPvSlot none jd = none := by
  unfold refreshPvSlot
  rcases jd.pv with _ | v <;> rcases jd.ts with _ | t <;> rfl

/-- A datagram with nonzero (or absent) status leaves the `pv` entry
unchanged. -/
theorem refreshPvSlot_invalid (storedPv : Option Msg) (jd : Msg)
    (h : jd.s ≠ some 0) : refreshPvSlot storedPv jd = storedPv := by
  rcases hp : jd.pv with _ | v
  · simp [refreshPvSlot, hp]
  rcases ht : jd.ts with _ | t
  · simp [refreshPvSlot, hp, ht]
  rcases storedPv with _ | stored
  · simp [refreshPvSlot, hp, ht]
  rcases hst : stored.ts with _ | stt
  · simp [refreshPvSlot, updMsg, hp, ht, hst]
  · simp [refreshPvSlot, updMsg, hp, ht, hst, h]

/-- A datagram with nonzero (or absent) status leaves the whole snapshot
unchanged. -/
theorem refresh_data_invalid (st : Store) (jd : Msg) (h : jd.s ≠ some 0) :
    refresh_data st jd = st := by
  apply store_eq_of_get
  · intro c
    rw [get_refresh_data]
    exact refreshChannel_invalid c _ jd h
  · rw [pv_refresh_data]
    exact refreshPvSlot_invalid st.pv jd h

/-- A datagram without a `'ts'` key leaves the whole snapshot unchanged. -/
theorem refresh_data_no_ts (st : Store) (jd : Msg) (h : jd.ts = none) :
    refresh_data st jd = st := by
  apply store_eq_of_get
  · intro c
    rw [get_refresh_data]
    exact refreshChannel_no_ts c _ jd h
  · rw [pv_refresh_data]
    rcases hp : jd.pv with _ | v
    · simp [refreshPvSlot, hp]
    · simp [refreshPvSlot, hp, h]

/-- Every channel of the initial snapshot holds the sentinel. -/
theorem init_get (c : Channel) : init_data.get c = nd := by
  cases c with
  | gy => rfl
  | ac => rfl
  | gp => rfl
  | gp3 => rfl
  | pts => rfl
  | vts => rfl
  | pc e => cases e <;> rfl
  | pd e => cases e <;> rfl
  | gd e => cases e <;> rfl

/-- Timestamps never decrease along any sequence of merges. -/
theorem foldl_refresh_ts_mono (msgs : List Msg) (st : Store) (c : Channel)
    (t : Int) (hst : (st.get c).ts = some t) :
    ∃ t2, ((msgs.foldl refresh_data st).get c).ts = some t2 ∧ t ≤ t2 := by
  induction msgs generalizing st t with
  | nil => exact ⟨t, hst, le_refl t⟩
  | cons jd rest ih =>
      obtain ⟨t1, h1, hle1⟩ := refreshChannel_ts_mono c (st.get c) jd t hst
      rw [← get_refresh_data] at h1
      obtain ⟨t2, h2, hle2⟩ := ih (refresh_data st jd) t1 h1
      exact ⟨t2, h2, le_trans hle1 hle2⟩

/-- Claim C1: across any sequence of `__refresh_data__` calls every
channel's stored timestamp is non-decreasing, and a single call whose
datagram has `ts` at most the stored timestamp, or whose status is not 0,
leaves the channel's stored sample unchanged. -/
theorem C1_merge_ts_monotone :
    (∀ (msgs : List Msg) (st : Store) (c : Channel) (t t2 : Int),
        (st.get c).ts = some t →
        ((msgs.foldl refresh_data st).get c).ts = some t2 → t ≤ t2)
    ∧ (∀ (st : Store) (jd : Msg) (c : Channel) (t stt : Int),
        jd.ts = some t → (st.get c).ts = some stt → t ≤ stt →
        (refresh_data st jd).get c = st.get c)
    ∧ (∀ (st : Store) (jd : Msg), jd.s ≠ some 0 → refresh_data st jd = st) := by
  refine ⟨?_, ?_, ?_⟩
  · intro msgs st c t t2 hst hfold
    obtain ⟨t3, h3, hle⟩ := foldl_refresh_ts_mono msgs st c t hst
    rw [hfold] at h3
    cases h3
    exact hle
  · intro st jd c t stt hts hst hle
    rw [get_refresh_data]
    exact refreshChannel_stale c _ jd t stt hts hst hle
  · intro st jd h
    exact refresh_data_invalid st jd h

/-- Witness for C1 at concrete inputs: a fresh sample raises the gp
timestamp from -1 to 5; a stale sample (ts 3) and an invalid-status sample
leave everything unchanged. -/
theorem C1_merge_ts_monotone_witness :
    ((-1 : Int) ≤ 5)
    ∧ (refresh_data (refresh_data init_data msgGp5) msgGp3).get Channel.gp
        = (refresh_data init_data msgGp5).get Channel.gp
    ∧ refresh_data init_data msgBadStatus = init_data := by
  refine ⟨C1_merge_ts_monotone.1 (msgGp5 :: []) init_data Channel.gp (-1) 5
      (by decide) (by decide),
    C1_merge_ts_monotone.2.1 (refresh_data init_data msgGp5) msgGp3 Channel.gp 3 5
      (by decide) (by decide) (by decide),
    C1_merge_ts_monotone.2.2 init_data msgBadStatus (by decide)⟩

/-- Claim C2: whenever a datagram carries a channel's key (with the right
eye discriminator for eye channels), has status 0 and a timestamp strictly
above the channel's stored one, the merge stores the whole datagram as that
channel's sample; as the statement quantifies over all channels of one
datagram, several channels update in the same call, all keyed by the same
incoming timestamp. -/
theorem C2_merge_stores_whole_message :
    ∀ (st : Store) (jd : Msg) (c : Channel) (t stt : Int),
      keyHits jd c → jd.s = some 0 → jd.ts = some t →
      (st.get c).ts = some stt → stt < t →
      (refresh_data st jd).get c = jd := by
  intro st jd c t stt hk hs hts hst hlt
  rw [get_refresh_data]
  exact refreshChannel_update c _ jd t stt hk hs hts hst hlt

/-- Witness for C2: one datagram carrying gy, ac and gp at once updates all
three channels to the whole datagram in a single merge. -/
theorem C2_merge_stores_whole_message_witness :
    (refresh_data init_data msgMulti).get Channel.gy = msgMulti
    ∧ (refresh_data init_data msgMulti).get Channel.ac = msgMulti
    ∧ (refresh_data init_data msgMulti).get Channel.gp = msgMulti := by
  refine ⟨C2_merge_stores_whole_message init_data msgMulti Channel.gy 7 (-1)
      (by decide) (by decide) (by decide) (by decide) (by decide),
    C2_merge_stores_whole_message init_data msgMulti Channel.ac 7 (-1)
      (by decide) (by decide) (by decide) (by decide) (by decide),
    C2_merge_stores_whole_message init_data msgMulti Channel.gp 7 (-1)
      (by decide) (by decide) (by decide) (by decide) (by decide)⟩

/-- Counterexample to claim C3: the snapshot built by `__init__` has no
sentinel for the `pv` channel at all (the dict never gets a `'pv'` key), and
consequently a valid pv datagram with timestamp 5 does not supersede
anything: the `pv` slot stays absent after the merge. -/
theorem C3_counterexample :
    init_data.pv = none ∧ init_data.pv ≠ some nd
    ∧ (refresh_data init_data msgPv).pv = none
    ∧ (refresh_data init_data msgPv).pv ≠ some msgPv := by decide

/-- Claim C3 as amended: `__init__` installs the sentinel sample of
timestamp -1 for every channel of the data model except `pv`, which is
absent; any sample with status 0 and ts above -1 supersedes the sentinel of
its channel on the first valid merge, while pv datagrams never update the
snapshot's `pv` entry. -/
theorem C3_init_sentinels_except_pv :
    (∀ c, init_data.get c = nd)
    ∧ nd.ts = some (-1)
    ∧ init_data.pv = none
    ∧ (∀ (jd : Msg) (c : Channel) (t : Int), keyHits jd c → jd.s = some 0 →
        jd.ts = some t → -1 < t → (refresh_data init_data jd).get c = jd)
    ∧ (∀ jd : Msg, (refresh_data init_data jd).pv = none) := by
  refine ⟨init_get, rfl, rfl, ?_, ?_⟩
  · intro jd c t hk hs hts hlt
    rw [get_refresh_data]
    exact refreshChannel_update c _ jd t (-1) hk hs hts (by rw [init_get]; rfl) hlt
  · intro jd
    rw [pv_refresh_data]
    exact refreshPvSlot_none jd

/-- Witness for the amended C3: the gy channel starts at the sentinel, a
valid gy sample with ts 6 supersedes it, and the pv slot stays absent. -/
theorem C3_init_sentinels_except_pv_witness :
    init_data.get Channel.gy = nd
    ∧ (refresh_data init_data msgGy6).get Channel.gy = msgGy6
    ∧ (refresh_data init_data msgGy6).pv = none := by
  refine ⟨C3_init_sentinels_except_pv.1 Channel.gy,
    C3_init_sentinels_except_pv.2.2.2.1 msgGy6 Channel.gy 6
      (by decide) (by decide) (by decide) (by decide),
    C3_init_sentinels_except_pv.2.2.2.2 msgGy6⟩

/-- Claim C5: the per-channel merge attempts are independent and
failure-isolated: a channel whose key does not hit (absent key, or absent or
unrecognised eye discriminator), or a datagram without `ts`, leaves that
channel unchanged; an absent status field leaves the whole snapshot
unchanged; and what happens to one channel depends only on the datagram and
that channel's own stored sample, never on the other channels. -/
theorem C5_channel_isolation :
    (∀ (jd : Msg) (st : Store) (c : Channel), ¬ keyHits jd c →
        (refresh_data st jd).get c = st.get c)
    ∧ (∀ (jd : Msg) (st : Store) (c : Channel), jd.ts = none →
        (refresh_data st jd).get c = st.get c)
    ∧ (∀ (jd : Msg) (st : Store), jd.s = none → refresh_data st jd = st)
    ∧ (∀ (jd : Msg) (st st2 : Store) (c : Channel), st.get c = st2.get c →
        (refresh_data st jd).get c = (refresh_data st2 jd).get c) := by
  refine ⟨?_, ?_, ?_, ?_⟩
  · intro jd st c h
    rw [get_refresh_data]
    exact refreshChannel_miss c _ jd h
  · intro jd st c h
    rw [get_refresh_data]
    exact refreshChannel_no_ts c _ jd h
  · intro jd st h
    exact refresh_data_invalid st jd (by simp [h])
  · intro jd st st2 c h
    rw [get_refresh_data, get_refresh_data, h]

/-- Witness for C5: a datagram carrying only gp leaves gy untouched while a
snapshot missing `ts` stays fixed, an s-less datagram changes nothing, and
two snapshots agreeing on gp agree on it after the same merge. -/
theorem C5_channel_isolation_witness :
    (refresh_data init_data msgGp5).get Channel.gy = init_data.get Channel.gy
    ∧ (refresh_data init_data msgNoTs).get Channel.gp = init_data.get Channel.gp
    ∧ refresh_data init_data msgNoS = init_data
    ∧ (refresh_data init_data msgGp5).get Channel.gp
        = (refresh_data (refresh_data init_data msgGy6) msgGp5).get Channel.gp := by
  refine ⟨C5_channel_isolation.1 msgGp5 init_data Channel.gy (by decide),
    C5_channel_isolation.2.1 msgNoTs init_data Channel.gp (by decide),
    C5_channel_isolation.2.2.1 msgNoS init_data (by decide),
    C5_channel_isolation.2.2.2 msgGp5 init_data (refresh_data init_data msgGy6)
      Channel.gp (by decide)⟩

/-- Claim C9: a datagram whose `eye` field is absent or is neither of the
two recognised values leaves every eye channel of both eyes unchanged, while
the non-eye channels of the same datagram are still processed normally. -/
theorem C9_unrecognised_eye_dropped :
    ∀ (jd : Msg) (st : Store),
      jd.eye ≠ some (eyeStr Eye.left) → jd.eye ≠ some (eyeStr Eye.right) →
      (∀ (e : Eye) (ch : Channel), chanEye ch = some e →
          (refresh_data st jd).get ch = st.get ch)
      ∧ (∀ (ch : Channel) (t stt : Int), chanEye ch = none →
          (msgField ch jd).isSome = true → jd.s = some 0 → jd.ts = some t →
          (st.get ch).ts = some stt → stt < t →
          (refresh_data st jd).get ch = jd) := by
  intro jd st hl hr
  constructor
  · intro e ch hce
    rw [get_refresh_data]
    apply refreshChannel_miss
    intro hk
    have hey := hk.2 e hce
    cases e
    · exact hl hey
    · exact hr hey
  · intro ch t stt hce hf hs hts hst hlt
    rw [get_refresh_data]
    refine refreshChannel_update ch _ jd t stt ⟨hf, ?_⟩ hs hts hst hlt
    intro e he
    rw [hce] at he
    cases he

/-- Witness for C9: a datagram with `eye` set to an unrecognised string and
carrying both a pc key and a gp key leaves the left pupil-center slot at the
sentinel while still storing itself in the gp channel. -/
theorem C9_unrecognised_eye_dropped_witness :
    (refresh_data init_data msgBadEye).get (Channel.pc Eye.left)
        = init_data.get (Channel.pc Eye.left)
    ∧ (refresh_data init_data msgBadEye).get Channel.gp = msgBadEye := by
  refine ⟨(C9_unrecognised_eye_dropped msgBadEye init_data (by decide) (by decide)).1
      Eye.left (Channel.pc Eye.left) (by decide),
    (C9_unrecognised_eye_dropped msgBadEye init_data (by decide) (by decide)).2
      Channel.gp 4 (-1) (by decide) (by decide) (by decide) (by decide)
      (by decide) (by decide)⟩

/-- Claim C4 is contradicted by the code (the handler's own log message and
assignment show the intent): when `socket.recvfrom` raises the receive
timeout while streaming, the clause `except socket.timeout:` evaluates the
shadowing parameter's `timeout` attribute, a float, so matching raises
TypeError, which escapes `__grab_data__`; the streaming flag is never set to
false by this path.  The last conjunct shows the intended clause value (the
module's exception class) would have matched. -/
theorem C4_timeout_handler_broken :
    grab_data_timeout_step true = Except.error PyExcClass.typeErrorClass
    ∧ (∀ b : Bool, grab_data_timeout_step true ≠ Except.ok b)
    ∧ clauseCatch (ClauseVal.excClass PyExcClass.socketTimeoutClass)
        PyExcClass.socketTimeoutClass = Except.ok true := by
  refine ⟨rfl, ?_, rfl⟩
  intro b h
  simp [grab_data_timeout_step, clauseCatch, grabExceptClauseVal] at h

/-- Counterexample to claim C6: `__mksock__` does not return a usable socket
for every peer address, and the bind attempt is not limited to the case
where an interface name was supplied.  For an IPv6 peer without a scope id
(interface name None) the attempted bind raises TypeError from
`None + chr(0)`; for the same peer with an interface name supplied the
attempted bind still raises TypeError, because under Python 3 `setsockopt`
rejects the `str` argument before any syscall.  Neither TypeError is a
`socket.error`, so both escape and no socket is returned in either case. -/
theorem C6_counterexample :
    mksock addr6NoScope none = MkSockResult.typeError
    ∧ mksock addr6NoScope (some ifaceEth0) = MkSockResult.typeError
    ∧ mksock addr6NoScope none ≠ MkSockResult.sock
    ∧ mksock addr6NoScope (some ifaceEth0) ≠ MkSockResult.sock := by decide

/-- Claim C6 as amended: the address family comes from whether the peer
address contains a colon; for IPv4 peers the bind is never attempted and a
usable socket is returned; for IPv6 peers the bind is always attempted,
whether or not an interface name was supplied, and under Python 3 the
attempt deterministically raises an uncaught TypeError (from `None + chr(0)`
without an interface name, from the `str` argument to `setsockopt` with
one), so no socket is returned for any IPv6 peer and the handler's errno-1
EPERM warning branch is unreachable. -/
theorem C6_mksock_bind_behaviour :
    ∀ (peerAddr : List Char) (iface : Option String),
      (':' ∉ peerAddr → mksock peerAddr iface = MkSockResult.sock)
      ∧ (':' ∈ peerAddr → mksock peerAddr iface = MkSockResult.typeError) := by
  intro peerAddr iface
  refine ⟨?_, ?_⟩
  · intro h
    simp [mksock, h]
  · intro h
    rcases iface with _ | nm <;> simp [mksock, h]

/-- Witness for the amended C6 at concrete addresses: an IPv4 peer gets a
socket with no bind attempt; an IPv6 peer gets the uncaught TypeError both
without and with an interface name. -/
theorem C6_mksock_bind_behaviour_witness :
    mksock addr4 none = MkSockResult.sock
    ∧ mksock addr6NoScope none = MkSockResult.typeError
    ∧ mksock addr6NoScope (some ifaceEth0) = MkSockResult.typeError := by
  refine ⟨(C6_mksock_bind_behaviour addr4 none).1 (by decide),
    (C6_mksock_bind_behaviour addr6NoScope none).2 (by decide),
    (C6_mksock_bind_behaviour addr6NoScope (some ifaceEth0)).2 (by decide)⟩

/-- Claim C7: the discovery probe goes out on the listen port (13006) when
the platform is win32 or darwin, and on listen port + 1 (13007) on every
other platform. -/
theorem C7_probe_port_by_platform :
    ∀ p : String,
      ((p = "win32" ∨ p = "darwin") → discover_port_out p = 13006)
      ∧ (¬(p = "win32" ∨ p = "darwin") → discover_port_out p = 13007)
      ∧ TOBII_DISCOVERY_PORT = 13006 := by
  intro p
  refine ⟨?_, ?_, rfl⟩
  · intro h
    unfold discover_port_out
    rw [if_pos h]
    decide
  · intro h
    unfold discover_port_out
    rw [if_neg h]
    decide

/-- Witness for C7 on the three platform strings the branch distinguishes. -/
theorem C7_probe_port_by_platform_witness :
    discover_port_out platformWin32 = 13006
    ∧ discover_port_out platformDarwin = 13006
    ∧ discover_port_out platformLinux = 13007 := by
  refine ⟨(C7_probe_port_by_platform platformWin32).1 (Or.inl (by decide)),
    (C7_probe_port_by_platform platformDarwin).1 (Or.inr (by decide)),
    (C7_probe_port_by_platform platformLinux).2.1 (by decide)⟩

/-- Claim C8: `wait_for_status` returns the -1 sentinel instead of raising
whenever a URLError occurs at any poll of its loop, and a value it returns
by normal loop exit is always a member of the accepted set. -/
theorem C8_wait_for_status_sentinel :
    (∀ (values : List String) (polls : List PollResult) (v : String),
        wait_for_status values polls = WaitOutcome.value v → v ∈ values)
    ∧ (∀ (values : List String) (pre : List PollResult),
        (∀ r ∈ pre, ∃ v, r = PollResult.reply (some v) ∧ v ∉ values) →
        wait_for_status values (pre ++ PollResult.urlError :: [])
          = WaitOutcome.sentinel) := by
  constructor
  · intro values polls
    induction polls with
    | nil =>
        intro v h
        simp [wait_for_status] at h
    | cons r rest ih =>
        intro v h
        match r with
        | PollResult.urlError => simp [wait_for_status] at h
        | PollResult.reply none => simp [wait_for_status] at h
        | PollResult.reply (some w) =>
            simp only [wait_for_status] at h
            by_cases hw : w ∈ values
            · rw [if_pos hw] at h
              cases h
              exact hw
            · rw [if_neg hw] at h
              exact ih v h
  · intro values pre h
    induction pre with
    | nil => rfl
    | cons r rest ih =>
        obtain ⟨v, hv, hnv⟩ := h r (List.mem_cons_self r rest)
        subst hv
        rw [List.cons_append]
        simp only [wait_for_status]
        rw [if_neg hnv]
        exact ih fun r2 hr2 => h r2 (List.mem_cons_of_mem _ hr2)

/-- Witness for C8: a run that polls "init" then hits a URLError ends in the
sentinel, and a run returning "ok" returned a member of the accepted set. -/
theorem C8_wait_for_status_sentinel_witness :
    statusOk ∈ statusOk :: ([] : List String)
    ∧ wait_for_status (statusOk :: [])
        (PollResult.reply (some statusInit) :: PollResult.urlError :: [])
        = WaitOutcome.sentinel := by
  refine ⟨C8_wait_for_status_sentinel.1 (statusOk :: [])
      (PollResult.reply (some statusOk) :: []) statusOk (by decide),
    C8_wait_for_status_sentinel.2 (statusOk :: [])
      (PollResult.reply (some statusInit) :: []) ?_⟩
  intro r hr
  rw [List.mem_singleton] at hr
  subst hr
  exact ⟨statusInit, rfl, by decide⟩

/-- Claim C10: `close` on a controller whose address is None performs no
action at all and returns the state unchanged; with an address set it first
stops streaming when the flag is up and then closes the open sockets, ending
with the streaming flag down. -/
theorem C10_close_address_guard :
    (∀ st : SessionState, st.address = none →
        close st = (st, ([] : List CloseAction)))
    ∧ (∀ (st : SessionState) (a : String), st.address = some a →
        (close st).1 = { st with streaming := false }
        ∧ (close st).2 =
            (if st.streaming then CloseAction.stopStream :: [] else [])
              ++ disconnect { st with streaming := false }) := by
  constructor
  · intro st h
    simp [close, h]
  · intro st a h
    rcases st with ⟨addr, strm, vid⟩
    simp only at h
    subst h
    cases strm <;> simp [close, stop_streaming, disconnect]

/-- Witness for C10: a close with no address does nothing; a close on a
live session stops the stream and then closes the data socket. -/
theorem C10_close_address_guard_witness :
    close stNoAddr = (stNoAddr, [])
    ∧ (close stLive).1 = { stLive with streaming := false }
    ∧ (close stLive).2
        = CloseAction.stopStream :: CloseAction.closeDataSocket :: [] := by
  refine ⟨C10_close_address_guard.1 stNoAddr rfl, ?_, ?_⟩
  · exact (C10_close_address_guard.2 stLive addrStr rfl).1
  · rw [(C10_close_address_guard.2 stLive addrStr rfl).2]
    decide
